import Mathlib

/-!
Verification of the Recruitment-Funnel-Agent core against its specification.

The definitions below are a shallow embedding of the Python source:
  * `agents/screening.py`  — skill matcher, score analysis, decision policy
  * `agents/response.py`   — response analysis, priority, human-review rule
  * `nodes/response.py`    — slot pool, slot allocation, follow-up execution
  * `nodes/screening.py`   — batch categorisation of screening results

Python floats are modelled as exact rationals (`ℚ`); the external fuzzy
string-similarity function `fuzz.partial_ratio` (library `fuzzywuzzy`) is a
parameter `fz : String → String → ℕ` of every definition that calls it.
-/

namespace RecruitmentFunnel

/-- Substring test on character lists: does `needle` occur contiguously in
`hay`?  The empty needle occurs in every list. -/
def charsContains : List Char → List Char → Bool
  | needle, [] => needle.isEmpty
  | needle, c :: rest => needle.isPrefixOf (c :: rest) || charsContains needle rest

/-- Python's substring test `needle in hay` (note: the empty string is a
substring of every string, as in Python). -/
def pyIn (needle hay : String) : Bool :=
  charsContains needle.data hay.data

/-- Python's `str.lower()`; all strings in this code base are ASCII, where
per-character lowering coincides with Python's semantics. -/
def pyLower (s : String) : String :=
  String.mk (s.data.map Char.toLower)

/-- `models/screening.py` `SkillMatch`. -/
structure SkillMatch where
  skill_name : String
  found : Bool
  match_type : String
  confidence : ℚ
  deriving Repr, DecidableEq

/-- The synonym table `ScreeningAgent.skill_synonyms` from
`agents/screening.py`, as an association list. -/
def skill_synonyms : List (String × List String) :=
  [ ("python", ["python", "python3", "py"]),
    ("machine learning", ["machine learning", "ml", "artificial intelligence", "ai"]),
    ("pytorch", ["pytorch", "torch", "py-torch"]),
    ("tensorflow", ["tensorflow", "tf", "tensor flow"]),
    ("nlp", ["nlp", "natural language processing", "text processing", "language models"]),
    ("computer vision", ["computer vision", "cv", "image processing", "opencv"]),
    ("javascript", ["javascript", "js", "ecmascript", "node.js", "nodejs"]),
    ("react", ["react", "reactjs", "react.js"]),
    ("java", ["java", "jvm"]),
    ("sql", ["sql", "mysql", "postgresql", "postgres", "database"]),
    ("aws", ["aws", "amazon web services", "amazon cloud"]),
    ("docker", ["docker", "containerization", "containers"]),
    ("kubernetes", ["kubernetes", "k8s", "container orchestration"]),
    ("git", ["git", "version control", "github", "gitlab"]),
    ("api", ["api", "rest api", "restful", "web services"]),
    ("agile", ["agile", "scrum", "kanban"]) ]

/-- Python's `self.skill_synonyms.get(required_lower, [required_lower])`. -/
def synonymsFor (required_lower : String) : List String :=
  match skill_synonyms.find? (fun p => p.1 == required_lower) with
  | some p => p.2
  | none => [required_lower]

/-- `fuzz.partial_ratio` maximisation loop of `_match_skill`
(`agents/screening.py` lines 189-198): best similarity over candidate skills,
starting from 0, strict improvement only. -/
def bestMatchScore (fz : String → String → ℕ) (required_lower : String)
    (candidate_skills : List String) : ℕ :=
  candidate_skills.foldl
    (fun best cs => if fz required_lower cs > best then fz required_lower cs else best) 0

/-- `ScreeningAgent._match_skill` (`agents/screening.py` lines 164-221). -/
def matchSkill (fz : String → String → ℕ) (required_skill : String)
    (candidate_skills : List String) : SkillMatch :=
  let required_lower := pyLower required_skill
  if candidate_skills.contains required_lower then
    { skill_name := required_skill, found := true, match_type := "exact", confidence := 1 }
  else if (synonymsFor required_lower).any (fun syn => candidate_skills.contains syn) then
    { skill_name := required_skill, found := true, match_type := "exact", confidence := 95/100 }
  else
    let best := bestMatchScore fz required_lower candidate_skills
    if best ≥ 85 then
      { skill_name := required_skill, found := true, match_type := "partial",
        confidence := (best : ℚ) / 100 }
    else if best ≥ 70 then
      { skill_name := required_skill, found := true, match_type := "related",
        confidence := (best : ℚ) / 100 }
    else
      { skill_name := required_skill, found := false, match_type := "none", confidence := 0 }

/-- `ScreeningAgent._calculate_skill_score` (`agents/screening.py` lines 223-229). -/
def calculateSkillScore (ms : List SkillMatch) : ℚ :=
  if ms.isEmpty then 0
  else (ms.map (fun m => m.confidence * 100)).sum / ms.length

/-- Result of `_analyze_skills`: the fields of `ScreeningResult` it fills. -/
structure SkillsAnalysis where
  required_skills_score : ℚ
  preferred_skills_score : ℚ
  skill_matches : List SkillMatch
  missing_critical_skills : List String
  deriving Repr

/-- `ScreeningAgent._analyze_skills` (`agents/screening.py` lines 123-162).
Candidate skills are lower-cased first; required skills with no match are the
missing critical skills; an empty required list scores 100.0 while an empty
preferred list scores 0.0 (the `else` arms of lines 152-153). -/
def analyzeSkills (fz : String → String → ℕ) (candidate_skills_raw : List String)
    (required_skills preferred_skills : List String) : SkillsAnalysis :=
  let candidate_skills := candidate_skills_raw.map pyLower
  let required_matches := required_skills.map (fun s => matchSkill fz s candidate_skills)
  let missing_critical := required_skills.filter
    (fun s => !(matchSkill fz s candidate_skills).found)
  let preferred_matches := preferred_skills.map (fun s => matchSkill fz s candidate_skills)
  { required_skills_score :=
      if !required_matches.isEmpty then calculateSkillScore required_matches else 100,
    preferred_skills_score :=
      if !preferred_matches.isEmpty then calculateSkillScore preferred_matches else 0,
    skill_matches := required_matches ++ preferred_matches,
    missing_critical_skills := missing_critical }

/-- `models/screening.py` `ScreeningCriteria` (the fields the screening agent
reads; floats as `ℚ`, years as `ℤ` mirroring the `int` fields). -/
structure ScreeningCriteria where
  required_skills_weight : ℚ := 4/10
  preferred_skills_weight : ℚ := 2/10
  experience_weight : ℚ := 3/10
  min_experience_years : ℤ := 0
  preferred_experience_years : ℤ := 3
  location_weight : ℚ := 1/10
  allow_remote : Bool := true
  preferred_locations : List String := []
  education_required : Bool := false
  education_weight : ℚ := 0
  pass_threshold : ℚ := 60
  shortlist_threshold : ℚ := 75
  deriving Repr

/-- `models/screening.py` `ScreeningResult` (fields used by the agent). -/
structure ScreeningResult where
  candidate_id : String
  candidate_name : String
  required_skills_score : ℚ
  preferred_skills_score : ℚ
  skill_matches : List SkillMatch
  missing_critical_skills : List String
  experience_score : ℚ
  experience_years : ℤ
  experience_level_match : String
  location_score : ℚ
  location_match : Bool
  candidate_location : String
  education_score : ℚ
  education_match : Bool
  overall_score : ℚ
  weighted_score : ℚ
  passes_screening : Bool
  recommended_for_shortlist : Bool
  strengths : List String
  concerns : List String
  deriving Repr

/-- `ScreeningAgent._analyze_experience` (`agents/screening.py` lines 231-257):
returns the `experience_level_match` label and the experience score. -/
def analyzeExperience (candidate_exp min_required preferred_exp : ℤ) : String × ℚ :=
  if candidate_exp < min_required then
    ("under",
      if min_required > 0 then
        max 0 (((candidate_exp : ℚ) / (min_required : ℚ)) * 60)
      else 60)
  else if candidate_exp ≥ preferred_exp then
    ("exceeds", min 100 (80 + ((candidate_exp : ℚ) - (preferred_exp : ℚ)) * 2))
  else
    ("meets",
      if preferred_exp > min_required then
        60 + (((candidate_exp : ℚ) - (min_required : ℚ)) /
              ((preferred_exp : ℚ) - (min_required : ℚ))) * 40
      else 80)

/-- `ScreeningAgent._analyze_location` (`agents/screening.py` lines 259-304):
returns `(location_score, location_match)`.  Substring tests follow Python
semantics (`pyIn`), in particular the empty string is a substring of every
string; the final guard `if job_location and candidate_location` is Python
string truthiness, i.e. both non-empty. -/
def analyzeLocation (fz : String → String → ℕ) (allow_remote : Bool)
    (preferred_locations : List String) (job_location candidate_location : String) :
    ℚ × Bool :=
  if allow_remote || pyIn "remote" (pyLower candidate_location) then
    (100, true)
  else if pyIn (pyLower job_location) (pyLower candidate_location) then
    (100, true)
  else if (preferred_locations.any
      (fun p => pyIn (pyLower p) (pyLower candidate_location))) then
    (90, true)
  else if job_location ≠ "" ∧ candidate_location ≠ "" then
    let location_similarity := fz (pyLower job_location) (pyLower candidate_location)
    if location_similarity ≥ 80 then ((location_similarity : ℚ), true)
    else (30, false)
  else
    (50, false)

/-- `ScreeningAgent._analyze_education` (`agents/screening.py` lines 306-338):
returns `(education_score, education_match)`. -/
def analyzeEducation (fz : String → String → ℕ) (education_required : Bool)
    (education_requirements candidate_education : List String) : ℚ × Bool :=
  if !education_required then (100, true)
  else if education_requirements.isEmpty then (100, true)
  else if candidate_education.isEmpty then (0, false)
  else
    let pairs := education_requirements.flatMap
      (fun req => candidate_education.map (fun edu => fz (pyLower req) (pyLower edu)))
    match pairs.find? (fun sim => sim ≥ 70) with
    | some sim => ((sim : ℚ), true)
    | none => (30, false)

/-- `ScreeningAgent._calculate_scores` (`agents/screening.py` lines 340-373). -/
def calculateScores (r : ScreeningResult) (criteria : ScreeningCriteria) :
    ScreeningResult :=
  let scores :=
    [r.required_skills_score, r.preferred_skills_score, r.experience_score,
     r.location_score] ++ (if criteria.education_required then [r.education_score] else [])
  let overall := scores.sum / scores.length
  let weighted_sum :=
    r.required_skills_score * criteria.required_skills_weight +
    r.preferred_skills_score * criteria.preferred_skills_weight +
    r.experience_score * criteria.experience_weight +
    r.location_score * criteria.location_weight +
    r.education_score * criteria.education_weight
  let total_weight :=
    criteria.required_skills_weight + criteria.preferred_skills_weight +
    criteria.experience_weight + criteria.location_weight + criteria.education_weight
  { r with
    overall_score := overall,
    weighted_score := if total_weight > 0 then weighted_sum / total_weight else overall }

/-- `ScreeningAgent._make_decisions` (`agents/screening.py` lines 375-394). -/
def makeDecisions (r : ScreeningResult) (criteria : ScreeningCriteria) :
    ScreeningResult :=
  if r.missing_critical_skills.length > 2 then
    { r with passes_screening := false, recommended_for_shortlist := false }
  else if r.experience_level_match = "under" ∧ r.experience_score < 30 then
    { r with passes_screening := false, recommended_for_shortlist := false }
  else
    { r with
      passes_screening := decide (r.weighted_score ≥ criteria.pass_threshold),
      recommended_for_shortlist := decide (r.weighted_score ≥ criteria.shortlist_threshold) }

/-- `ScreeningAgent._generate_insights` (`agents/screening.py` lines 396-436). -/
def generateInsights (r : ScreeningResult) : ScreeningResult :=
  let strengths :=
    (if r.required_skills_score ≥ 80 then ["Strong technical skills match"] else []) ++
    (if r.preferred_skills_score ≥ 60 then ["Good preferred skills coverage"] else []) ++
    (if r.experience_level_match = "exceeds" then ["Highly experienced candidate"] else []) ++
    (if r.location_match then ["Location compatible"] else []) ++
    (if r.weighted_score ≥ 85 then ["Excellent overall candidate"]
     else if r.weighted_score ≥ 70 then ["Good candidate match"] else [])
  let concerns :=
    (if r.required_skills_score < 50 then ["Missing several required skills"] else []) ++
    (if r.experience_level_match = "under" then ["Below minimum experience requirement"] else []) ++
    (if !r.location_match then ["Location may require relocation"] else []) ++
    (if !r.missing_critical_skills.isEmpty then
      ["Missing critical skills: " ++ String.intercalate ", " (r.missing_critical_skills.take 3)]
     else []) ++
    (if r.weighted_score < 50 then ["Significant gaps in requirements"] else [])
  { r with strengths := strengths, concerns := concerns }

/-- The candidate profile fields the screening pipeline reads
(`models/sourcing.py` `CandidateProfile`, built by
`create_candidate_from_raw_data`). -/
structure CandidateProfile where
  source_id : String
  name : String
  skills : List String
  experience_years : ℤ
  location : String
  education : List String
  deriving Repr

/-- The job-requirement fields the screening pipeline reads (the
`job_requirements` dict). -/
structure JobRequirements where
  required_skills : List String
  preferred_skills : List String
  location : String
  education_requirements : List String
  deriving Repr

/-- The happy-path body of `ScreeningAgent.screen_candidate`
(`agents/screening.py` lines 53-95): analyse skills, experience, location and
education, then compute scores, decisions and insights. -/
def screenCandidateBody (fz : String → String → ℕ) (candidate : CandidateProfile)
    (job : JobRequirements) (criteria : ScreeningCriteria) : ScreeningResult :=
  let sk := analyzeSkills fz candidate.skills job.required_skills job.preferred_skills
  let ex := analyzeExperience candidate.experience_years
    criteria.min_experience_years criteria.preferred_experience_years
  let loc := analyzeLocation fz criteria.allow_remote criteria.preferred_locations
    job.location candidate.location
  let edu := analyzeEducation fz criteria.education_required
    job.education_requirements candidate.education
  let r : ScreeningResult :=
    { candidate_id := candidate.source_id,
      candidate_name := candidate.name,
      required_skills_score := sk.required_skills_score,
      preferred_skills_score := sk.preferred_skills_score,
      skill_matches := sk.skill_matches,
      missing_critical_skills := sk.missing_critical_skills,
      experience_score := ex.2,
      experience_years := candidate.experience_years,
      experience_level_match := ex.1,
      location_score := loc.1,
      location_match := loc.2,
      candidate_location := candidate.location,
      education_score := edu.1,
      education_match := edu.2,
      overall_score := 0,
      weighted_score := 0,
      passes_screening := false,
      recommended_for_shortlist := false,
      strengths := [],
      concerns := [] }
  generateInsights (makeDecisions (calculateScores r criteria) criteria)

/-- The `except` arm of `ScreeningAgent.screen_candidate`
(`agents/screening.py` lines 97-121): the minimal valid result returned when
any internal step raises, with the failure reason recorded in `concerns`. -/
def errorScreeningResult (candidate_id candidate_name : String)
    (experience_years : ℤ) (candidate_location : String) (errMsg : String) :
    ScreeningResult :=
  { candidate_id := candidate_id,
    candidate_name := candidate_name,
    required_skills_score := 0,
    preferred_skills_score := 0,
    skill_matches := [],
    missing_critical_skills := [],
    experience_score := 0,
    experience_years := experience_years,
    experience_level_match := "under",
    location_score := 0,
    location_match := false,
    candidate_location := candidate_location,
    education_score := 0,
    education_match := false,
    overall_score := 0,
    weighted_score := 0,
    passes_screening := false,
    recommended_for_shortlist := false,
    strengths := [],
    concerns := ["Error during screening: " ++ errMsg] }

/-- `ScreeningAgent.screen_candidate` (`agents/screening.py` lines 34-121).
An internal failure (any exception inside the `try`) is modelled by the
`Except` argument: `.ok` carries the parsed candidate profile, `.error` the
exception message.  In either case a `ScreeningResult` is returned — the
function never raises to its caller. -/
def screenCandidate (fz : String → String → ℕ)
    (parsed : Except String CandidateProfile)
    (fallback_id fallback_name : String) (fallback_years : ℤ)
    (fallback_location : String)
    (job : JobRequirements) (criteria : ScreeningCriteria) : ScreeningResult :=
  match parsed with
  | .ok candidate => screenCandidateBody fz candidate job criteria
  | .error e =>
      errorScreeningResult fallback_id fallback_name fallback_years fallback_location e

/-- `models/response.py` `ResponseType`. -/
inductive ResponseType where
  | interested | not_interested | questions | request_info
  | schedule_later | out_of_office | spam_complaint | unknown
  deriving Repr, DecidableEq

/-- `models/response.py` `ResponseSentiment`. -/
inductive ResponseSentiment where
  | positive | neutral | negative | mixed
  deriving Repr, DecidableEq

/-- `models/response.py` `InterviewType`. -/
inductive InterviewType where
  | phone_screen | video_interview | technical_interview
  | on_site_interview | panel_interview
  deriving Repr, DecidableEq

/-- `models/response.py` `FollowUpAction`. -/
inductive FollowUpAction where
  | schedule_interview | send_info | answer_questions | schedule_later
  | add_to_future_pool | escalate_to_human | no_action | remove_from_list
  deriving Repr, DecidableEq

/-- `models/response.py` `ResponseAnalysis` (the fields the agent reads). -/
structure ResponseAnalysis where
  response_type : ResponseType
  sentiment : ResponseSentiment
  confidence_score : ℚ
  questions : List String := []
  recommended_action : FollowUpAction
  priority_level : ℤ
  reasoning : String := ""
  key_phrases : List String := []
  deriving Repr, DecidableEq

/-- `models/response.py` `ResponseConfig` (fields the agent reads; the
confidence threshold defaults to 0.7). -/
structure ResponseConfig where
  confidence_threshold : ℚ := 7/10
  auto_respond_to_questions : Bool := true
  deriving Repr

/-- `ResponseManagementAgent.analyze_response` (`agents/response.py` lines
89-127).  The external LLM classification call is modelled by the `Except`
argument: `.ok` is a successful parse of the classifier output, `.error` an
exception raised by the call or the parser.  On failure the safe default
analysis is returned; no exception propagates. -/
def analyzeResponse (llm_call : Except String ResponseAnalysis) : ResponseAnalysis :=
  match llm_call with
  | .ok analysis => analysis
  | .error e =>
      { response_type := .unknown,
        sentiment := .neutral,
        confidence_score := 0,
        recommended_action := .escalate_to_human,
        priority_level := 3,
        reasoning := "Analysis failed: " ++ e,
        key_phrases := [] }

/-- `ResponseManagementAgent._calculate_priority` (`agents/response.py` lines
273-293). -/
def calculatePriority (analysis : ResponseAnalysis) : ℤ :=
  let priority := analysis.priority_level
  let priority :=
    if analysis.response_type = .interested then min priority 2
    else if analysis.response_type = .questions then min priority 3
    else if analysis.response_type = .not_interested then max priority 4
    else priority
  if analysis.sentiment = .positive then max 1 (priority - 1)
  else if analysis.sentiment = .negative then min 5 (priority + 1)
  else priority

/-- `ResponseManagementAgent._recommend_interview_type` (`agents/response.py`
lines 295-315). -/
def recommendInterviewType (analysis : ResponseAnalysis) (job_title : String) :
    Option InterviewType :=
  if analysis.response_type ≠ .interested ∧ analysis.response_type ≠ .questions then
    none
  else if analysis.key_phrases.any
      (fun phrase => pyIn "remote" (pyLower phrase) || pyIn "video" (pyLower phrase)) then
    some .video_interview
  else if analysis.key_phrases.any
      (fun phrase => pyIn "phone" (pyLower phrase) || pyIn "call" (pyLower phrase)) then
    some .phone_screen
  else if pyIn "senior" (pyLower job_title) || pyIn "lead" (pyLower job_title) ||
      pyIn "principal" (pyLower job_title) then
    some .video_interview
  else
    some .phone_screen

/-- `ResponseManagementAgent._needs_human_review` (`agents/response.py` lines
317-332). -/
def needsHumanReview (config : ResponseConfig) (analysis : ResponseAnalysis) : Bool :=
  if analysis.confidence_score < config.confidence_threshold then true
  else if analysis.response_type = .spam_complaint ∨ analysis.response_type = .unknown then
    true
  else if analysis.response_type = .questions ∧ analysis.questions.length > 3 then true
  else false

/-- `models/response.py` `CandidateResponse` (the fields read by the
follow-up execution; uuid-generated `response_id` is carried opaquely). -/
structure CandidateResponse where
  response_id : String
  candidate_id : String
  candidate_name : String
  candidate_email : String
  response_type : ResponseType
  sentiment : ResponseSentiment
  confidence_score : ℚ
  questions : List String := []
  availability : Option String := none
  special_requests : List String := []
  follow_up_action : FollowUpAction
  interview_type : Option InterviewType := none
  priority_level : ℤ
  human_review_needed : Bool := false
  job_id : String := ""
  job_title : String := ""
  deriving Repr

/-- The happy-path body of
`ResponseManagementAgent.process_candidate_response` (`agents/response.py`
lines 134-189): analyse via the (possibly failing) classifier call, then
derive priority, interview type and the human-review flag.  The regex entity
extraction (questions/availability/special requests) is passed in as already
extracted lists, since its input is the raw response text. -/
def processCandidateResponse (config : ResponseConfig)
    (llm_call : Except String ResponseAnalysis)
    (response_id candidate_id candidate_name candidate_email : String)
    (extracted_questions : List String) (extracted_availability : Option String)
    (extracted_special_requests : List String)
    (job_id job_title : String) : CandidateResponse :=
  let analysis := analyzeResponse llm_call
  { response_id := response_id,
    candidate_id := candidate_id,
    candidate_name := candidate_name,
    candidate_email := candidate_email,
    response_type := analysis.response_type,
    sentiment := analysis.sentiment,
    confidence_score := analysis.confidence_score,
    questions := extracted_questions,
    availability := extracted_availability,
    special_requests := extracted_special_requests,
    follow_up_action := analysis.recommended_action,
    interview_type := recommendInterviewType analysis job_title,
    priority_level := calculatePriority analysis,
    human_review_needed := needsHumanReview config analysis,
    job_id := job_id,
    job_title := job_title }

/-- `models/response.py` `InterviewSlot` (times modelled as abstract
timestamps in `ℤ`). -/
structure InterviewSlot where
  slot_id : String
  start_time : ℤ
  end_time : ℤ
  interviewer : String
  interview_type : InterviewType
  deriving Repr, DecidableEq

/-- `models/response.py` `ScheduledInterview` (the deterministic fields set
by `schedule_interview`; the uuid-generated `interview_id` and meeting
link/instructions are opaque strings irrelevant to scheduling). -/
structure ScheduledInterview where
  candidate_id : String
  candidate_name : String
  candidate_email : String
  interview_type : InterviewType
  scheduled_time : ℤ
  duration_minutes : ℤ
  interviewer : String
  interviewer_email : String
  job_id : String
  job_title : String
  deriving Repr, DecidableEq

/-- `ResponseManagementAgent.schedule_interview` (`agents/response.py` lines
464-496): builds a `ScheduledInterview` from the response and the selected
slot. -/
def scheduleInterview (response : CandidateResponse) (selected_slot : InterviewSlot)
    (interviewer_email : String) : ScheduledInterview :=
  { candidate_id := response.candidate_id,
    candidate_name := response.candidate_name,
    candidate_email := response.candidate_email,
    interview_type := selected_slot.interview_type,
    scheduled_time := selected_slot.start_time,
    duration_minutes := 60,
    interviewer := selected_slot.interviewer,
    interviewer_email := interviewer_email,
    job_id := response.job_id,
    job_title := response.job_title }

/-- `find_suitable_interview_slot` (`nodes/response.py` lines 536-548): the
first available slot of the preferred interview type, else the first
available slot of any type, else `none`.  The `availability` hint parameter
is accepted and ignored, as in the source. -/
def findSuitableInterviewSlot (available_slots : List InterviewSlot)
    (preferred_type : InterviewType) (availability : Option String := none) :
    Option InterviewSlot :=
  let type_matched_slots :=
    available_slots.filter (fun slot => slot.interview_type == preferred_type)
  match type_matched_slots with
  | slot :: _ => some slot
  | [] => available_slots.head?

/-- A `pending_actions` entry built in `execute_follow_up_actions`. -/
structure PendingAction where
  response_id : String
  action : String
  reason : String
  deriving Repr, DecidableEq

/-- A follow-up email entry: the routing fields attached in
`execute_follow_up_actions` (the generated subject/body text is opaque). -/
structure EmailRef where
  recipient : String
  response_id : String
  deriving Repr, DecidableEq

/-- The mutable state threaded through the loop of
`execute_follow_up_actions` (`nodes/response.py` lines 193-300). -/
structure FollowUpState where
  follow_up_emails : List EmailRef := []
  scheduled_interviews : List ScheduledInterview := []
  pending_actions : List PendingAction := []
  available_slots : List InterviewSlot
  deriving Repr

/-- One iteration of the loop in `execute_follow_up_actions`
(`nodes/response.py` lines 209-287), branching on `follow_up_action`.  For
`schedule_interview`, when slots remain and the response carries an
interview type, the suitable slot is assigned and removed from the pool
(`available_slots.remove(suitable_slot)` — removal of the first equal
element, `List.erase`). -/
def followUpStep (config : ResponseConfig) (st : FollowUpState)
    (response : CandidateResponse) : FollowUpState :=
  if response.follow_up_action = .schedule_interview then
    match response.interview_type with
    | some ty =>
        if !st.available_slots.isEmpty then
          match findSuitableInterviewSlot st.available_slots ty response.availability with
          | some suitable_slot =>
              let interview := scheduleInterview response suitable_slot "recruiter@company.com"
              { st with
                scheduled_interviews := st.scheduled_interviews ++ [interview],
                follow_up_emails := st.follow_up_emails ++
                  [{ recipient := response.candidate_email,
                     response_id := response.response_id }],
                available_slots := st.available_slots.erase suitable_slot }
          | none =>
              { st with pending_actions := st.pending_actions ++
                  [{ response_id := response.response_id,
                     action := "find_interview_slot",
                     reason := "No suitable slots available" }] }
        else st
    | none => st
  else if response.follow_up_action = .answer_questions ∨
      response.follow_up_action = .send_info then
    if config.auto_respond_to_questions then
      { st with follow_up_emails := st.follow_up_emails ++
          [{ recipient := response.candidate_email,
             response_id := response.response_id }] }
    else
      { st with pending_actions := st.pending_actions ++
          [{ response_id := response.response_id,
             action := "manual_response",
             reason := "Auto-response disabled for questions" }] }
  else if response.follow_up_action = .add_to_future_pool then
    { st with follow_up_emails := st.follow_up_emails ++
        [{ recipient := response.candidate_email,
           response_id := response.response_id }] }
  else if response.follow_up_action = .escalate_to_human then
    { st with pending_actions := st.pending_actions ++
        [{ response_id := response.response_id,
           action := "human_review",
           reason := "Escalated for human review" }] }
  else st

/-- `execute_follow_up_actions` (`nodes/response.py` lines 193-300): fold the
per-response step over the processed responses, starting from the initial
slot pool with no emails, interviews or pending actions. -/
def executeFollowUpActions (config : ResponseConfig)
    (processed_responses : List CandidateResponse)
    (available_slots : List InterviewSlot) : FollowUpState :=
  processed_responses.foldl (followUpStep config)
    { available_slots := available_slots }

/-- Accumulator of the batch loop in `screen_candidates_batch`
(`nodes/screening.py`) and `screen_database_candidates`
(`workflows/screening.py`). -/
structure BatchAcc (κ : Type) where
  screening_results : List ScreeningResult := []
  passed_candidates : List κ := []
  shortlisted_candidates : List κ := []

/-- One iteration of the categorisation loop (`nodes/screening.py` lines
81-98): screen the candidate, record the result, and append the candidate to
`passed_candidates` when it passes and — only inside that branch — to
`shortlisted_candidates` when it is also recommended for shortlist.
`screen` abstracts the call `agent.screen_candidate(candidate_data, ...)`. -/
def screeningBatchStep {κ : Type} (screen : κ → ScreeningResult)
    (acc : BatchAcc κ) (candidate_data : κ) : BatchAcc κ :=
  let result := screen candidate_data
  let acc := { acc with screening_results := acc.screening_results ++ [result] }
  if result.passes_screening then
    if result.recommended_for_shortlist then
      { acc with
        passed_candidates := acc.passed_candidates ++ [candidate_data],
        shortlisted_candidates := acc.shortlisted_candidates ++ [candidate_data] }
    else
      { acc with passed_candidates := acc.passed_candidates ++ [candidate_data] }
  else acc

/-- The batch-processing loop of `screen_candidates_batch`
(`nodes/screening.py` lines 81-120): fold over the raw candidates starting
from empty result lists. -/
def screenCandidatesBatch {κ : Type} (screen : κ → ScreeningResult)
    (raw_candidates : List κ) : BatchAcc κ :=
  raw_candidates.foldl (screeningBatchStep screen) {}

/-! ## Helper lemmas -/

/-- The empty character list occurs in every list (Python: `'' in s`). -/
theorem charsContains_nil_left (l : List Char) : charsContains [] l = true := by
  cases l <;> simp [charsContains, List.isPrefixOf]

/-! ## Claim theorems -/

/-- C1: Screening decision policy.  For every screening result and criteria,
`_make_decisions` sets `passes_screening` to true exactly when at most 2
required skills are missing, the under-experience auto-fail does not trigger
(`experience_level_match = "under"` with experience score < 30), and the
weighted score reaches `pass_threshold`; `recommended_for_shortlist` is the
same except compared against `shortlist_threshold` — the two thresholds are
compared independently, so shortlist can hold without pass when
`shortlist_threshold < pass_threshold`. -/
theorem C1_screening_decision_policy (r : ScreeningResult) (criteria : ScreeningCriteria) :
    (makeDecisions r criteria).passes_screening =
      (decide (r.missing_critical_skills.length ≤ 2) &&
       !(decide (r.experience_level_match = "under") && decide (r.experience_score < 30)) &&
       decide (r.weighted_score ≥ criteria.pass_threshold)) ∧
    (makeDecisions r criteria).recommended_for_shortlist =
      (decide (r.missing_critical_skills.length ≤ 2) &&
       !(decide (r.experience_level_match = "under") && decide (r.experience_score < 30)) &&
       decide (r.weighted_score ≥ criteria.shortlist_threshold)) := by
  unfold makeDecisions
  by_cases h1 : r.missing_critical_skills.length > 2
  · simp [h1, Nat.not_le_of_lt h1]
  · by_cases h2 : r.experience_level_match = "under" ∧ r.experience_score < 30
    · simp [h1, h2, Nat.le_of_not_lt h1]
    · push_neg at h2
      by_cases h3 : r.experience_level_match = "under"
      · simp [h1, h3, Nat.le_of_not_lt h1, not_lt.mpr (h2 h3)]
      · simp [h1, h3, Nat.le_of_not_lt h1]

/-- C3: Safe classifier default.  If the external classification call raises,
`analyze_response` returns an analysis with `response_type = unknown`,
`sentiment = neutral`, `confidence_score = 0.0`,
`recommended_action = escalate_to_human` and `priority_level = 3`, and the
caller `process_candidate_response` receives exactly those values in the
resulting `CandidateResponse` — no exception propagates and the response is
never left unclassified. -/
theorem C3_safe_classifier_default (config : ResponseConfig) (e : String)
    (rid cid cname cemail : String) (qs : List String) (av : Option String)
    (sr : List String) (jid jtitle : String) :
    (analyzeResponse (.error e)).response_type = .unknown ∧
    (analyzeResponse (.error e)).sentiment = .neutral ∧
    (analyzeResponse (.error e)).confidence_score = 0 ∧
    (analyzeResponse (.error e)).recommended_action = .escalate_to_human ∧
    (analyzeResponse (.error e)).priority_level = 3 ∧
    (processCandidateResponse config (.error e) rid cid cname cemail qs av sr
        jid jtitle).response_type = .unknown ∧
    (processCandidateResponse config (.error e) rid cid cname cemail qs av sr
        jid jtitle).sentiment = .neutral ∧
    (processCandidateResponse config (.error e) rid cid cname cemail qs av sr
        jid jtitle).confidence_score = 0 ∧
    (processCandidateResponse config (.error e) rid cid cname cemail qs av sr
        jid jtitle).follow_up_action = .escalate_to_human ∧
    (processCandidateResponse config (.error e) rid cid cname cemail qs av sr
        jid jtitle).priority_level = 3 := by
  refine ⟨rfl, rfl, rfl, rfl, rfl, rfl, rfl, rfl, rfl, ?_⟩
  simp [processCandidateResponse, analyzeResponse, calculatePriority]

/-- C6: Screening totality and error result.  `screen_candidate` is a total
function of its inputs (the `Except` argument covers every internal
outcome, so it never raises to its caller); when an internal failure occurs
it returns a `ScreeningResult` whose component, overall and weighted scores
are all 0, with `passes_screening = false`,
`recommended_for_shortlist = false`, and the failure reason recorded in
`concerns`. -/
theorem C6_screen_candidate_error_result (fz : String → String → ℕ)
    (e fid fname floc : String) (fyears : ℤ)
    (job : JobRequirements) (criteria : ScreeningCriteria) :
    (screenCandidate fz (.error e) fid fname fyears floc job criteria).required_skills_score = 0 ∧
    (screenCandidate fz (.error e) fid fname fyears floc job criteria).preferred_skills_score = 0 ∧
    (screenCandidate fz (.error e) fid fname fyears floc job criteria).experience_score = 0 ∧
    (screenCandidate fz (.error e) fid fname fyears floc job criteria).location_score = 0 ∧
    (screenCandidate fz (.error e) fid fname fyears floc job criteria).education_score = 0 ∧
    (screenCandidate fz (.error e) fid fname fyears floc job criteria).overall_score = 0 ∧
    (screenCandidate fz (.error e) fid fname fyears floc job criteria).weighted_score = 0 ∧
    (screenCandidate fz (.error e) fid fname fyears floc job criteria).passes_screening = false ∧
    (screenCandidate fz (.error e) fid fname fyears floc job criteria).recommended_for_shortlist = false ∧
    ("Error during screening: " ++ e) ∈
      (screenCandidate fz (.error e) fid fname fyears floc job criteria).concerns := by
  refine ⟨rfl, rfl, rfl, rfl, rfl, rfl, rfl, rfl, rfl, ?_⟩
  simp [screenCandidate, errorScreeningResult]

/-- C8: Escalation rule.  `human_review_needed` is true if and only if the
classification confidence is below the configured threshold (default 0.7),
or the response type is `spam_complaint` or `unknown`, or the response type
is `questions` with more than 3 extracted questions. -/
theorem C8_escalation_rule :
    ({} : ResponseConfig).confidence_threshold = 7/10 ∧
    ∀ (config : ResponseConfig) (analysis : ResponseAnalysis),
      needsHumanReview config analysis = true ↔
        (analysis.confidence_score < config.confidence_threshold ∨
         analysis.response_type = .spam_complaint ∨
         analysis.response_type = .unknown ∨
         (analysis.response_type = .questions ∧ analysis.questions.length > 3)) := by
  refine ⟨rfl, fun config analysis => ?_⟩
  unfold needsHumanReview
  split_ifs with h1 h2 h3 <;> simp_all <;> tauto

/-- C4 counterexample: screening a candidate against an empty
`preferred_skills` list yields `preferred_skills_score = 0`, not 100 as the
claim states (`agents/screening.py` line 153, the `else 0.0` arm). -/
theorem C4_counterexample :
    (analyzeSkills (fun _ _ => 0) ["java"] [] []).preferred_skills_score = 0 ∧
    (analyzeSkills (fun _ _ => 0) ["java"] [] []).preferred_skills_score ≠ 100 := by
  constructor <;> decide

/-- C4 amended: each skill score over a non-empty list is the mean of the
per-skill matcher confidences times 100; an empty required-skills list
scores 100, but an empty preferred-skills list scores 0 (not 100). -/
theorem C4_empty_skill_list_scores (fz : String → String → ℕ)
    (cand req pref : List String) :
    (analyzeSkills fz cand req pref).required_skills_score =
      (if req.isEmpty then 100 else
        (req.map (fun s =>
          (matchSkill fz s (cand.map pyLower)).confidence * 100)).sum / req.length) ∧
    (analyzeSkills fz cand req pref).preferred_skills_score =
      (if pref.isEmpty then 0 else
        (pref.map (fun s =>
          (matchSkill fz s (cand.map pyLower)).confidence * 100)).sum / pref.length) := by
  constructor
  · cases req with
    | nil => simp [analyzeSkills]
    | cons s rest => simp [analyzeSkills, calculateSkillScore, List.map_map, Function.comp_def]
  · cases pref with
    | nil => simp [analyzeSkills]
    | cons s rest => simp [analyzeSkills, calculateSkillScore, List.map_map, Function.comp_def]

/-- C5 counterexample: for `required_skills = ["Python", "AWS"]` and
`candidate_skills = ["python3", "AWS"]`, the required-skills score is
97.5 (synonym matches carry confidence 0.95), not 100 as the claim
states. -/
theorem C5_counterexample :
    (analyzeSkills (fun _ _ => 0) ["python3", "AWS"] ["Python", "AWS"] []).required_skills_score
      ≠ 100 := by
  have h : (analyzeSkills (fun _ _ => 0) ["python3", "AWS"] ["Python", "AWS"]
      []).required_skills_score =
      calculateSkillScore
        [{ skill_name := "Python", found := true, match_type := "exact", confidence := 95/100 },
         { skill_name := "AWS", found := true, match_type := "exact", confidence := 1 }] := rfl
  rw [h]
  simp only [calculateSkillScore]
  norm_num

/-- C5 amended: in example scenario 1 (`required_skills = ["Python","AWS"]`,
`candidate_skills = ["python3","AWS"]`), "Python" matches via the synonym
table and "AWS" literally, both with `match_type = "exact"` (confidences
0.95 and 1.0), and the required-skills score is 97.5 — the mean of the
confidences times 100, not 100.  This holds for every fuzzy-similarity
function, since the fuzzy tier is never reached. -/
theorem C5_synonym_scenario (fz : String → String → ℕ) :
    ((analyzeSkills fz ["python3", "AWS"] ["Python", "AWS"] []).skill_matches.map
        (fun m => (m.skill_name, m.match_type, m.found, m.confidence))) =
      [("Python", "exact", true, 95/100), ("AWS", "exact", true, 1)] ∧
    (analyzeSkills fz ["python3", "AWS"] ["Python", "AWS"] []).required_skills_score =
      195/2 := by
  refine ⟨rfl, ?_⟩
  have h : (analyzeSkills fz ["python3", "AWS"] ["Python", "AWS"] []).required_skills_score =
      calculateSkillScore
        [{ skill_name := "Python", found := true, match_type := "exact", confidence := 95/100 },
         { skill_name := "AWS", found := true, match_type := "exact", confidence := 1 }] := rfl
  rw [h]
  simp only [calculateSkillScore]
  norm_num

set_option maxRecDepth 4000 in
/-- C7: Slot allocation policy.  `find_suitable_interview_slot` returns the
first slot in the pool whose interview type equals the requested type when
one exists, otherwise the first slot of the pool of any type, and `none`
exactly when the pool is empty.  The availability hint is ignored. -/
theorem C7_slot_allocation_policy (pool : List InterviewSlot)
    (ty : InterviewType) (hint : Option String) :
    findSuitableInterviewSlot pool ty hint =
      ((pool.find? (fun s => s.interview_type == ty)).orElse (fun _ => pool.head?)) ∧
    (findSuitableInterviewSlot pool ty hint = none ↔ pool = []) := by
  have hfind_filter : ∀ (l : List InterviewSlot),
      l.find? (fun s => s.interview_type == ty) =
        (l.filter (fun s => s.interview_type == ty)).head? := by
    intro l
    induction l with
    | nil => rfl
    | cons a t ih =>
        rw [List.find?_cons, List.filter_cons]
        cases h : (a.interview_type == ty) with
        | true => simp only [cond_true, if_true, List.head?_cons]
        | false => simp only [cond_false, if_false]; exact ih
  have key : findSuitableInterviewSlot pool ty hint =
      ((pool.find? (fun s => s.interview_type == ty)).orElse (fun _ => pool.head?)) := by
    rw [hfind_filter]
    unfold findSuitableInterviewSlot
    cases hfil : pool.filter (fun s => s.interview_type == ty) with
    | nil => simp [Option.orElse]
    | cons m ms => simp [Option.orElse]
  refine ⟨key, ?_⟩
  rw [key]
  cases pool with
  | nil => simp [Option.orElse]
  | cons s rest =>
      constructor
      · intro h
        cases hfind : (s :: rest).find? (fun x => x.interview_type == ty) with
        | none => rw [hfind] at h; simp [Option.orElse] at h
        | some m => rw [hfind] at h; simp [Option.orElse] at h
      · intro h; exact absurd h (List.cons_ne_nil s rest)

/-- C9 counterexample: with remote not allowed, no preferred locations, an
empty job location and candidate location "Berlin", `_analyze_location` gives
score 100 (Python's `'' in s` is always true, so the exact-substring branch
fires), not the neutral 50 the claim requires for a missing job-location
string. -/
theorem C9_counterexample :
    (analyzeLocation (fun _ _ => 0) false [] "" "Berlin").1 = 100 ∧
    (analyzeLocation (fun _ _ => 0) false [] "" "Berlin").1 ≠ 50 := by
  have h : (analyzeLocation (fun _ _ => 0) false [] "" "Berlin").1 = 100 := rfl
  exact ⟨h, by rw [h]; norm_num⟩

/-- C9 amended: with remote not allowed and no "remote" in the candidate
location, the location score is 100 on a substring match of the job location
in the candidate location (where, as in Python, an EMPTY job location counts
as a substring of everything and so scores 100, not the claimed neutral 50),
90 on a preferred-location substring match, the fuzzy partial-ratio value
when it is at least 80, 30 otherwise, and the neutral 50 exactly when the
candidate location string is empty (after the substring and
preferred-location checks miss). -/
theorem C9_location_score (fz : String → String → ℕ) (pref : List String)
    (job cand : String)
    (hremote : pyIn "remote" (pyLower cand) = false) :
    (pyIn (pyLower job) (pyLower cand) = true →
      analyzeLocation fz false pref job cand = (100, true)) ∧
    (pyIn (pyLower job) (pyLower cand) = false →
      pref.any (fun p => pyIn (pyLower p) (pyLower cand)) = true →
      analyzeLocation fz false pref job cand = (90, true)) ∧
    (pyIn (pyLower job) (pyLower cand) = false →
      pref.any (fun p => pyIn (pyLower p) (pyLower cand)) = false →
      job ≠ "" → cand ≠ "" →
      ((80 ≤ fz (pyLower job) (pyLower cand) →
         analyzeLocation fz false pref job cand =
           ((fz (pyLower job) (pyLower cand) : ℚ), true)) ∧
       (fz (pyLower job) (pyLower cand) < 80 →
         analyzeLocation fz false pref job cand = (30, false)))) ∧
    (pyIn (pyLower job) (pyLower cand) = false →
      pref.any (fun p => pyIn (pyLower p) (pyLower cand)) = false →
      cand = "" →
      analyzeLocation fz false pref job cand = (50, false)) ∧
    (job = "" → analyzeLocation fz false pref job cand = (100, true)) := by
  refine ⟨?_, ?_, ?_, ?_, ?_⟩
  · intro hsub
    simp [analyzeLocation, hremote, hsub]
  · intro hsub hpref
    simp [analyzeLocation, hremote, hsub, hpref]
  · intro hsub hpref hjob hcand
    constructor
    · intro hfz
      simp [analyzeLocation, hremote, hsub, hpref, hjob, hcand, Nat.le_of_lt,
        hfz]
    · intro hfz
      simp [analyzeLocation, hremote, hsub, hpref, hjob, hcand,
        Nat.not_le_of_lt hfz]
  · intro hsub hpref hcand
    subst hcand
    simp [analyzeLocation, hremote, hsub, hpref]
  · intro hjob
    have hsub : pyIn (pyLower job) (pyLower cand) = true := by
      subst hjob
      have hnil : (pyLower "").data = [] := rfl
      show charsContains (pyLower "").data (pyLower cand).data = true
      rw [hnil]
      exact charsContains_nil_left _
    simp [analyzeLocation, hremote, hsub]

/-- C9 witness: the amended location-score theorem applied at a concrete
input (no remote allowance, empty candidate location): the neutral score 50
is produced. -/
theorem C9_location_score_witness :
    pyIn "remote" (pyLower "") = false ∧
    analyzeLocation (fun _ _ => 0) false [] "NYC" "" = (50, false) := by
  refine ⟨by decide, ?_⟩
  exact (C9_location_score (fun _ _ => 0) [] "NYC" "" (by decide)).2.2.2.1
    (by decide) (by decide) rfl

/-- One batch step preserves "shortlisted ⊆ passed": candidates are appended
to `shortlisted_candidates` only inside the `passes_screening` branch, where
they are also appended to `passed_candidates`. -/
theorem screeningBatchStep_subset {κ : Type} (screen : κ → ScreeningResult)
    (acc : BatchAcc κ) (cand : κ)
    (h : ∀ c, c ∈ acc.shortlisted_candidates → c ∈ acc.passed_candidates) :
    ∀ c, c ∈ (screeningBatchStep screen acc cand).shortlisted_candidates →
      c ∈ (screeningBatchStep screen acc cand).passed_candidates := by
  intro c
  unfold screeningBatchStep
  by_cases hp : (screen cand).passes_screening = true
  · by_cases hs : (screen cand).recommended_for_shortlist = true
    · simp only [hp, hs, if_true]
      intro hc
      rcases List.mem_append.mp hc with hc | hc
      · exact List.mem_append.mpr (Or.inl (h c hc))
      · exact List.mem_append.mpr (Or.inr hc)
    · simp only [hp, hs, if_true, if_false]
      intro hc
      exact List.mem_append.mpr (Or.inl (h c hc))
  · simp only [hp, if_false]
    exact h c

/-- The fold over any candidate list preserves "shortlisted ⊆ passed". -/
theorem screeningBatch_fold_subset {κ : Type} (screen : κ → ScreeningResult)
    (cands : List κ) (acc : BatchAcc κ)
    (h : ∀ c, c ∈ acc.shortlisted_candidates → c ∈ acc.passed_candidates) :
    ∀ c, c ∈ (cands.foldl (screeningBatchStep screen) acc).shortlisted_candidates →
      c ∈ (cands.foldl (screeningBatchStep screen) acc).passed_candidates := by
  induction cands generalizing acc with
  | nil => exact h
  | cons x xs ih =>
      intro c hc
      exact ih (screeningBatchStep screen acc x)
        (screeningBatchStep_subset screen acc x h) c hc

/-- C10: Shortlist output is a subset of pass output.  In the screening
stage's batch loop, every candidate placed in `shortlisted_candidates` is
also in `passed_candidates`: the shortlist append happens only inside the
`passes_screening` branch, so a result with `recommended_for_shortlist = true`
but `passes_screening = false` is never emitted as shortlisted. -/
theorem C10_shortlist_subset_passed {κ : Type} (screen : κ → ScreeningResult)
    (raw_candidates : List κ) (c : κ)
    (hc : c ∈ (screenCandidatesBatch screen raw_candidates).shortlisted_candidates) :
    c ∈ (screenCandidatesBatch screen raw_candidates).passed_candidates := by
  exact screeningBatch_fold_subset screen raw_candidates {} (by intro c h; cases h) c hc

/-- C10 witness: the subset theorem applied to a concrete one-candidate
batch whose screening result passes and shortlists. -/
theorem C10_shortlist_subset_passed_witness :
    (0 : ℕ) ∈ (screenCandidatesBatch
      (fun _ => { errorScreeningResult "id" "name" 0 "" "m" with
                    passes_screening := true, recommended_for_shortlist := true })
      [0]).passed_candidates := by
  refine C10_shortlist_subset_passed _ [0] 0 ?_
  show (0 : ℕ) ∈ [0]
  exact List.mem_singleton.mpr rfl

/-- A slot returned by `find_suitable_interview_slot` is a member of the
pool it was selected from. -/
theorem findSuitable_mem (pool : List InterviewSlot) (ty : InterviewType)
    (hint : Option String) (s : InterviewSlot)
    (h : findSuitableInterviewSlot pool ty hint = some s) : s ∈ pool := by
  unfold findSuitableInterviewSlot at h
  revert h
  cases hfil : pool.filter (fun slot => slot.interview_type == ty) with
  | nil =>
      intro h
      cases pool with
      | nil => cases h
      | cons a t =>
          simp only [List.head?_cons, Option.some.injEq] at h
          exact h ▸ List.mem_cons_self a t
  | cons m ms =>
      intro h
      simp only [Option.some.injEq] at h
      have hm : m ∈ pool.filter (fun slot => slot.interview_type == ty) := by
        rw [hfil]; exact List.mem_cons_self m ms
      exact h ▸ List.mem_of_mem_filter hm

/-- Rearrangement step for the slot-pool invariant: appending the assigned
slot time to the interview list and erasing it from the pool preserves the
combined multiset. -/
theorem perm_append_singleton_append {α : Type} (a : List α) (t : α) (b c : List α)
    (h : c.Perm (t :: b)) : ((a ++ [t]) ++ b).Perm (a ++ c) := by
  rw [List.append_assoc]
  exact List.Perm.append_left a h.symm

/-- One follow-up step preserves the multiset of slot start-times split
between the scheduled interviews and the remaining pool: a scheduled slot's
start time moves from the pool to the interview list, everything else is
untouched. -/
theorem followUpStep_perm (config : ResponseConfig) (st : FollowUpState)
    (r : CandidateResponse) :
    ((followUpStep config st r).scheduled_interviews.map (fun i => i.scheduled_time) ++
     (followUpStep config st r).available_slots.map (fun s => s.start_time)).Perm
    (st.scheduled_interviews.map (fun i => i.scheduled_time) ++
     st.available_slots.map (fun s => s.start_time)) := by
  unfold followUpStep
  by_cases h1 : r.follow_up_action = .schedule_interview
  · rw [if_pos h1]
    cases hty : r.interview_type with
    | none => exact List.Perm.refl _
    | some ty =>
        dsimp only
        cases h2 : st.available_slots.isEmpty with
        | true => exact List.Perm.refl _
        | false =>
            cases hfind : findSuitableInterviewSlot st.available_slots ty r.availability with
            | none => exact List.Perm.refl _
            | some slot =>
                rw [if_pos (show (!false) = true from rfl)]
                have hmem : slot ∈ st.available_slots :=
                  findSuitable_mem _ _ _ _ hfind
                have hmap : (st.available_slots.map (fun s => s.start_time)).Perm
                    (slot.start_time :: (st.available_slots.erase slot).map
                      (fun s => s.start_time)) := by
                  simpa using (List.perm_cons_erase hmem).map (fun s => s.start_time)
                simp only [List.map_append, List.map_cons, List.map_nil]
                exact perm_append_singleton_append _ _ _ _ hmap
  · rw [if_neg h1]
    by_cases h2 : r.follow_up_action = .answer_questions ∨ r.follow_up_action = .send_info
    · rw [if_pos h2]
      cases h3 : config.auto_respond_to_questions with
      | true => exact List.Perm.refl _
      | false => exact List.Perm.refl _
    · rw [if_neg h2]
      by_cases h4 : r.follow_up_action = .add_to_future_pool
      · rw [if_pos h4]
      · rw [if_neg h4]
        by_cases h5 : r.follow_up_action = .escalate_to_human
        · rw [if_pos h5]
        · rw [if_neg h5]

/-- The whole follow-up fold preserves the multiset of slot start-times
split between scheduled interviews and the remaining pool. -/
theorem followUpFold_perm (config : ResponseConfig) (rs : List CandidateResponse)
    (st : FollowUpState) :
    (((rs.foldl (followUpStep config) st).scheduled_interviews.map
        (fun i => i.scheduled_time)) ++
     ((rs.foldl (followUpStep config) st).available_slots.map
        (fun s => s.start_time))).Perm
    ((st.scheduled_interviews.map (fun i => i.scheduled_time)) ++
     (st.available_slots.map (fun s => s.start_time))) := by
  induction rs generalizing st with
  | nil => exact List.Perm.refl _
  | cons r rest ih =>
      exact ((ih (followUpStep config st r)).trans (followUpStep_perm config st r))

/-- C2: Slot exclusivity.  Within one `execute_follow_up_actions` run over a
pool whose slots have pairwise-distinct start times, the scheduled
interviews' times together with the remaining pool's times form a
permutation of the initial pool's times — each slot is removed from the pool
exactly once, at the moment it is assigned — and consequently no two
`ScheduledInterview` outputs reference the same slot: the scheduled times
are pairwise distinct. -/
theorem C2_slot_exclusivity (config : ResponseConfig)
    (rs : List CandidateResponse) (pool : List InterviewSlot)
    (h : (pool.map (fun s => s.start_time)).Nodup) :
    ((executeFollowUpActions config rs pool).scheduled_interviews.map
        (fun i => i.scheduled_time) ++
     (executeFollowUpActions config rs pool).available_slots.map
        (fun s => s.start_time)).Perm (pool.map (fun s => s.start_time)) ∧
    ((executeFollowUpActions config rs pool).scheduled_interviews.map
        (fun i => i.scheduled_time)).Nodup := by
  have hperm := followUpFold_perm config rs { available_slots := pool }
  simp only [List.map_nil, List.nil_append] at hperm
  refine ⟨hperm, ?_⟩
  have hall : ((executeFollowUpActions config rs pool).scheduled_interviews.map
      (fun i => i.scheduled_time) ++
      (executeFollowUpActions config rs pool).available_slots.map
      (fun s => s.start_time)).Nodup := hperm.symm.nodup h
  exact hall.sublist (List.sublist_append_left _ _)

/-- C2 witness: the slot-exclusivity theorem applied to a concrete run — two
interested responses requesting a video interview against a pool of one
video slot and one phone slot; the two scheduled interviews get distinct
times. -/
theorem C2_slot_exclusivity_witness :
    (([⟨"v1", 1, 2, "Sarah Johnson", .video_interview⟩,
       ⟨"p1", 3, 4, "Sarah Johnson", .phone_screen⟩] :
        List InterviewSlot).map (fun s => s.start_time)).Nodup ∧
    ((executeFollowUpActions {}
        [{ response_id := "r1", candidate_id := "c1", candidate_name := "A",
           candidate_email := "a@x.com", response_type := .interested,
           sentiment := .positive, confidence_score := 1,
           follow_up_action := .schedule_interview,
           interview_type := some .video_interview, priority_level := 2 },
         { response_id := "r2", candidate_id := "c2", candidate_name := "B",
           candidate_email := "b@x.com", response_type := .interested,
           sentiment := .positive, confidence_score := 1,
           follow_up_action := .schedule_interview,
           interview_type := some .video_interview, priority_level := 2 }]
        [⟨"v1", 1, 2, "Sarah Johnson", .video_interview⟩,
         ⟨"p1", 3, 4, "Sarah Johnson", .phone_screen⟩]).scheduled_interviews.map
        (fun i => i.scheduled_time)).Nodup :=
  ⟨by decide,
   (C2_slot_exclusivity {}
     [{ response_id := "r1", candidate_id := "c1", candidate_name := "A",
        candidate_email := "a@x.com", response_type := .interested,
        sentiment := .positive, confidence_score := 1,
        follow_up_action := .schedule_interview,
        interview_type := some .video_interview, priority_level := 2 },
      { response_id := "r2", candidate_id := "c2", candidate_name := "B",
        candidate_email := "b@x.com", response_type := .interested,
        sentiment := .positive, confidence_score := 1,
        follow_up_action := .schedule_interview,
        interview_type := some .video_interview, priority_level := 2 }]
     [⟨"v1", 1, 2, "Sarah Johnson", .video_interview⟩,
      ⟨"p1", 3, 4, "Sarah Johnson", .phone_screen⟩] (by decide)).2⟩

end RecruitmentFunnel
